import Mathlib

/-!
Shallow embedding of `src/backend/routers/announcements.py` (announcement
CRUD endpoints of a school management API) and verification of its
specification claims.

Modelling conventions:
* The MongoDB collections are explicit state: `DB` holds the announcement
  documents and the set of teacher ids present in `teachers_collection`.
* A document field that can be missing, BSON null, or a string is a
  `BsonStr`.
* `HTTPException(status_code, detail)` is `HTTPError`; handlers return
  `Except HTTPError _` (plus the post-state for the mutating handlers).
* Each handler body that the source wraps in `try/except Exception`
  around store calls takes a `storeExn : Option String` parameter:
  `some msg` means the first store call inside that `try` block raises an
  unexpected exception whose text is `msg`; `none` means the store works.
* `datetime.date.today()` and `datetime.utcnow()` are parameters
  (`today`, `now`); the id generated by `insert_one` is a parameter
  (`newId`).
* Python's `datetime.strptime(value, "%Y-%m-%d")` is embedded from
  CPython's `_strptime` regex semantics: `%Y` is exactly four digits,
  `%m` matches `1[0-2]|0[1-9]|[1-9]`, `%d` matches
  `3[01]|[12][0-9]|0[1-9]|[1-9]`, the dashes are literal, the whole
  string must be consumed, and the resulting numbers must form a valid
  `datetime.date` (ASCII digits are modelled; exotic Unicode digits are
  not).
-/

namespace Announcements

/-- fastapi.HTTPException: an HTTP status code plus a detail string. -/
structure HTTPError where
  status : Nat
  detail : String
deriving Repr, DecidableEq

/-- a string-valued Mongo document field that may be missing from the
document, null, or an actual string. -/
inductive BsonStr where
  | absent
  | null
  | val (s : String)
deriving Repr, DecidableEq

/-- an announcement document as stored in `announcements_collection`:
`_id` is the (lower-case hex) ObjectId, `created_at`/`updated_at` are
timestamps. -/
structure AnnouncementDoc where
  _id : String
  title : String
  message : String
  start_date : BsonStr
  end_date : BsonStr
  created_at : Nat
  updated_at : Nat
deriving Repr, DecidableEq

/-- the two collections the router touches: `announcements_collection`
and the ids present in `teachers_collection`. -/
structure DB where
  announcements : List AnnouncementDoc
  teachers : List String
deriving Repr, DecidableEq

/-- the pydantic request model AnnouncementPayload: `title` and
`message` are required strings, `start_date` optional, `end_date`
required. -/
structure AnnouncementPayload where
  title : String
  message : String
  start_date : Option String
  end_date : String
deriving Repr, DecidableEq

/-- the pydantic `Field` bounds on AnnouncementPayload (checked by the
framework before a handler runs): title 1..80 characters, message
1..280 characters. -/
def payloadValid (p : AnnouncementPayload) : Bool :=
  decide (1 ≤ p.title.length) && decide (p.title.length ≤ 80) &&
    decide (1 ≤ p.message.length) && decide (p.message.length ≤ 280)

/-- an ASCII decimal digit, the `\d` of the strptime regex. -/
def isDigitC (c : Char) : Bool := decide (48 ≤ c.toNat) && decide (c.toNat ≤ 57)

/-- numeric value of a digit character. -/
def chVal (c : Char) : Nat := c.toNat - 48

/-- numeric value of a two-digit group. -/
def val2 (a b : Char) : Nat := 10 * chVal a + chVal b

/-- numeric value of a four-digit group. -/
def val4 (a b c d : Char) : Nat := 1000 * chVal a + 100 * chVal b + 10 * chVal c + chVal d

/-- days_in_month from the datetime module: month lengths of the
proleptic Gregorian calendar. -/
def daysInMonth (y m : Nat) : Nat :=
  if m = 2 then (if y % 4 = 0 ∧ (y % 100 ≠ 0 ∨ y % 400 = 0) then 29 else 28)
  else if m = 4 ∨ m = 6 ∨ m = 9 ∨ m = 11 then 30
  else 31

/-- Python `datetime.date`: year, month, day. -/
structure Date where
  year : Nat
  month : Nat
  day : Nat
deriving Repr, DecidableEq

/-- the argument checks of the `datetime.date` constructor:
MINYEAR ≤ year ≤ MAXYEAR, 1 ≤ month ≤ 12, 1 ≤ day ≤ days in month. -/
def validDate (y m d : Nat) : Bool :=
  decide (1 ≤ y) && decide (y ≤ 9999) && decide (1 ≤ m) && decide (m ≤ 12) &&
    decide (1 ≤ d) && decide (d ≤ daysInMonth y m)

/-- the regex match of `strptime(value, "%Y-%m-%d")`: four year digits,
month `1[0-2]|0[1-9]|[1-9]`, day `3[01]|[12][0-9]|0[1-9]|[1-9]`
(equivalently: one or two digits in range, no two-digit `00`), literal
dashes, whole string consumed. Returns the captured (year, month, day)
numbers before date validity checking. -/
def strpYMD : List Char → Option (Nat × Nat × Nat)
  | [y1, y2, y3, y4, c5, a, b, c8, d1, d2] =>
    if decide (c5 = '-') && decide (c8 = '-') &&
        isDigitC y1 && isDigitC y2 && isDigitC y3 && isDigitC y4 &&
        isDigitC a && isDigitC b && decide (1 ≤ val2 a b) && decide (val2 a b ≤ 12) &&
        isDigitC d1 && isDigitC d2 && decide (1 ≤ val2 d1 d2) && decide (val2 d1 d2 ≤ 31) then
      some (val4 y1 y2 y3 y4, val2 a b, val2 d1 d2)
    else none
  | [y1, y2, y3, y4, c5, a, c7, b, c9] =>
    if decide (c5 = '-') && decide (c7 = '-') &&
        isDigitC y1 && isDigitC y2 && isDigitC y3 && isDigitC y4 &&
        isDigitC a && decide (1 ≤ chVal a) &&
        isDigitC b && isDigitC c9 && decide (1 ≤ val2 b c9) && decide (val2 b c9 ≤ 31) then
      some (val4 y1 y2 y3 y4, chVal a, val2 b c9)
    else if decide (c5 = '-') && decide (b = '-') &&
        isDigitC y1 && isDigitC y2 && isDigitC y3 && isDigitC y4 &&
        isDigitC a && isDigitC c7 && decide (1 ≤ val2 a c7) && decide (val2 a c7 ≤ 12) &&
        isDigitC c9 && decide (1 ≤ chVal c9) then
      some (val4 y1 y2 y3 y4, val2 a c7, chVal c9)
    else none
  | [y1, y2, y3, y4, c5, a, c7, b] =>
    if decide (c5 = '-') && decide (c7 = '-') &&
        isDigitC y1 && isDigitC y2 && isDigitC y3 && isDigitC y4 &&
        isDigitC a && decide (1 ≤ chVal a) &&
        isDigitC b && decide (1 ≤ chVal b) then
      some (val4 y1 y2 y3 y4, chVal a, chVal b)
    else none
  | _ => none

/-- `datetime.strptime(s, "%Y-%m-%d").date()`: regex match plus the
`date` constructor's validity checks; `none` is a ValueError. -/
def strptimeDate (s : String) : Option Date :=
  match strpYMD s.data with
  | none => none
  | some (y, m, d) => if validDate y m d then some ⟨y, m, d⟩ else none

/-- `date.isoformat()`, i.e. "%04d-%02d-%02d"; for the values a
`datetime.date` can hold (1 ≤ year ≤ 9999, month and day two digits at
most) this is exactly the zero-padded digit string. -/
def Date.isoformat (dt : Date) : String :=
  ⟨[Nat.digitChar (dt.year / 1000 % 10), Nat.digitChar (dt.year / 100 % 10),
    Nat.digitChar (dt.year / 10 % 10), Nat.digitChar (dt.year % 10), '-',
    Nat.digitChar (dt.month / 10 % 10), Nat.digitChar (dt.month % 10), '-',
    Nat.digitChar (dt.day / 10 % 10), Nat.digitChar (dt.day % 10)]⟩

/-- Python `date` comparison `a < b` (lexicographic on year, month, day). -/
def dateLT (a b : Date) : Bool :=
  decide (a.year < b.year) ||
    (decide (a.year = b.year) &&
      (decide (a.month < b.month) || (decide (a.month = b.month) && decide (a.day < b.day))))

/-- parse_date: `None` and `""` pass through as `None`; otherwise
strptime, with a ValueError converted to HTTP 400. -/
def parse_date (value : Option String) (field_name : String) : Except HTTPError (Option Date) :=
  match value with
  | none => .ok none
  | some s =>
    if s = "" then .ok none
    else
      match strptimeDate s with
      | some dt => .ok (some dt)
      | none => .error ⟨400, field_name ++ " must be in YYYY-MM-DD format"⟩

/-- validate_date_range: if a start date is present and after the end
date, HTTP 400. -/
def validate_date_range (start_date : Option Date) (end_date : Date) : Except HTTPError Unit :=
  match start_date with
  | none => .ok ()
  | some s =>
    if dateLT end_date s then .error ⟨400, "start_date must be on or before end_date"⟩
    else .ok ()

/-- require_teacher: a falsy (missing or empty) username is a 401; a
username with no teacher record is a 401; otherwise the lookup
succeeds. Nothing but existence of the record is checked. -/
def require_teacher (db : DB) (teacher_username : Option String) : Except HTTPError Unit :=
  match teacher_username with
  | none => .error ⟨401, "Authentication required"⟩
  | some u =>
    if u = "" then .error ⟨401, "Authentication required"⟩
    else if db.teachers.contains u then .ok ()
    else .error ⟨401, "Invalid teacher credentials"⟩

/-- the serialized form of an announcement returned to clients;
`document.get(...)` turns a missing or null field into `None`. -/
structure SerializedAnnouncement where
  id : String
  title : String
  message : String
  start_date : Option String
  end_date : Option String
  created_at : Option Nat
  updated_at : Option Nat
deriving Repr, DecidableEq

/-- `document.get(key)` on a string-or-null field. -/
def bsonGet : BsonStr → Option String
  | .absent => none
  | .null => none
  | .val s => some s

/-- serialize_announcement. -/
def serialize_announcement (d : AnnouncementDoc) : SerializedAnnouncement :=
  ⟨d._id, d.title, d.message, bsonGet d.start_date, bsonGet d.end_date,
    some d.created_at, some d.updated_at⟩

/-- a 24-character hex string, the only strings `bson.ObjectId` accepts. -/
def isValidObjectId (s : String) : Bool :=
  decide (s.length = 24) &&
    s.data.all (fun c => isDigitC c ||
      (decide (97 ≤ c.toNat) && decide (c.toNat ≤ 102)) ||
      (decide (65 ≤ c.toNat) && decide (c.toNat ≤ 70)))

/-- ObjectId normalizes hex input to lower case (`str(ObjectId(s))` is
the lower-cased hex string). -/
def lowerId (s : String) : String := ⟨s.data.map Char.toLower⟩

/-- `ObjectId(announcement_id)` wrapped in the router's try/except:
invalid ids become HTTP 400. -/
def parseObjectId (announcement_id : String) : Except HTTPError String :=
  if isValidObjectId announcement_id then .ok (lowerId announcement_id)
  else .error ⟨400, "Invalid announcement id"⟩

/-- Python `str.strip()`: remove leading and trailing whitespace. -/
def strip (s : String) : String :=
  ⟨((s.data.dropWhile Char.isWhitespace).reverse.dropWhile Char.isWhitespace).reverse⟩

/-- the Mongo filter of get_active_announcements:
`end_date >= today` (a string comparison, so a missing or null end_date
never matches), and start_date missing, null, empty, or `<= today`. -/
def matchesActive (today : String) (d : AnnouncementDoc) : Bool :=
  (match d.end_date with
    | .val e => decide (today ≤ e)
    | _ => false)
  &&
  (match d.start_date with
    | .absent => true
    | .null => true
    | .val s => s == "" || decide (s ≤ today))

/-- the predicate of the claim, stated in the spec's words: end_date on
or after today and start_date absent, null, empty, or on or before
today. -/
def isActiveSpec (today : String) (d : AnnouncementDoc) : Prop :=
  (∃ e, d.end_date = .val e ∧ today ≤ e) ∧
    (d.start_date = .absent ∨ d.start_date = .null ∨ d.start_date = .val "" ∨
      ∃ s, d.start_date = .val s ∧ s ≤ today)

/-- sort key for a string-or-null field: Mongo sorts missing and null
together below all strings. -/
def bsonKey : BsonStr → WithBot String
  | .absent => ⊥
  | .null => ⊥
  | .val s => (s : WithBot String)

/-- a two-key lexicographic "comes no later than" relation on documents. -/
def keyLE {α β : Type} [LinearOrder α] [LinearOrder β]
    (f : AnnouncementDoc → α) (g : AnnouncementDoc → β) (a b : AnnouncementDoc) : Prop :=
  f a < f b ∨ (f a = f b ∧ g a ≤ g b)

instance keyLE_dec {α β : Type} [LinearOrder α] [LinearOrder β]
    (f : AnnouncementDoc → α) (g : AnnouncementDoc → β) : DecidableRel (keyLE f g) :=
  fun a b => by unfold keyLE; exact inferInstance

instance keyLE_isTrans {α β : Type} [LinearOrder α] [LinearOrder β]
    (f : AnnouncementDoc → α) (g : AnnouncementDoc → β) : IsTrans AnnouncementDoc (keyLE f g) := by
  constructor
  intro a b c hab hbc
  rcases hab with h1 | ⟨h1, h1'⟩ <;> rcases hbc with h2 | ⟨h2, h2'⟩
  · exact Or.inl (h1.trans h2)
  · exact Or.inl (h2 ▸ h1)
  · exact Or.inl (h1 ▸ h2)
  · exact Or.inr ⟨h1.trans h2, h1'.trans h2'⟩

instance keyLE_isTotal {α β : Type} [LinearOrder α] [LinearOrder β]
    (f : AnnouncementDoc → α) (g : AnnouncementDoc → β) : IsTotal AnnouncementDoc (keyLE f g) := by
  constructor
  intro a b
  rcases lt_trichotomy (f a) (f b) with h | h | h
  · exact Or.inl (Or.inl h)
  · rcases le_total (g a) (g b) with h' | h'
    · exact Or.inl (Or.inr ⟨h, h'⟩)
    · exact Or.inr (Or.inr ⟨h.symm, h'⟩)
  · exact Or.inr (Or.inl h)

/-- the sort order `[("start_date", 1), ("created_at", -1)]` of
get_active_announcements: start_date ascending (missing and null
first), then created_at descending. -/
def activeLE : AnnouncementDoc → AnnouncementDoc → Prop :=
  keyLE (fun d => bsonKey d.start_date) (fun d => OrderDual.toDual d.created_at)

instance : DecidableRel activeLE := fun a b => keyLE_dec _ _ a b

instance : IsTrans AnnouncementDoc activeLE := keyLE_isTrans _ _

instance : IsTotal AnnouncementDoc activeLE := keyLE_isTotal _ _

/-- the sort order `[("end_date", -1), ("start_date", -1)]` of
list_announcements: end_date descending, then start_date descending. -/
def allLE : AnnouncementDoc → AnnouncementDoc → Prop :=
  keyLE (fun d => OrderDual.toDual (bsonKey d.end_date))
    (fun d => OrderDual.toDual (bsonKey d.start_date))

instance : DecidableRel allLE := fun a b => keyLE_dec _ _ a b

instance : IsTrans AnnouncementDoc allLE := keyLE_isTrans _ _

instance : IsTotal AnnouncementDoc allLE := keyLE_isTotal _ _

/-- GET /announcements/active: no authentication; filter the collection
by the active query and sort by start_date ascending, created_at
descending; a store exception becomes a generic 500. -/
def get_active_announcements (db : DB) (today : String) (storeExn : Option String) :
    Except HTTPError (List SerializedAnnouncement) :=
  match storeExn with
  | some _ => .error ⟨500, "Failed to load announcements"⟩
  | none =>
    .ok ((List.insertionSort activeLE (db.announcements.filter (matchesActive today))).map
      serialize_announcement)

/-- GET /announcements: requires a teacher; returns the whole
collection sorted by end_date descending, start_date descending; a
store exception becomes a generic 500. -/
def list_announcements (db : DB) (teacher_username : Option String) (storeExn : Option String) :
    Except HTTPError (List SerializedAnnouncement) :=
  match require_teacher db teacher_username with
  | .error e => .error e
  | .ok _ =>
    match storeExn with
    | some _ => .error ⟨500, "Failed to load announcements"⟩
    | none => .ok ((List.insertionSort allLE db.announcements).map serialize_announcement)

/-- the document fields written by both create and update. -/
def contentFields (p : AnnouncementPayload) (start_date : Option Date) (end_date : Date)
    (now : Nat) (d : AnnouncementDoc) : AnnouncementDoc :=
  { d with
    title := strip p.title,
    message := strip p.message,
    start_date := match start_date with
      | some s => BsonStr.val s.isoformat
      | none => BsonStr.null,
    end_date := BsonStr.val end_date.isoformat,
    updated_at := now }

/-- the document dict built by create_announcement: trimmed title and
message, isoformat dates (None when no start date), created_at and
updated_at stamped with the current time, and the id of the insert. -/
def newDoc (p : AnnouncementPayload) (start_date : Option Date) (end_date : Date)
    (now : Nat) (newId : String) : AnnouncementDoc :=
  { _id := newId,
    title := strip p.title,
    message := strip p.message,
    start_date := match start_date with
      | some s => BsonStr.val s.isoformat
      | none => BsonStr.null,
    end_date := BsonStr.val end_date.isoformat,
    created_at := now,
    updated_at := now }

/-- POST /announcements: auth, date parsing, end_date presence check,
range check, then insert of the built document (created_at and
updated_at stamped `now`, id `newId`); an insert exception becomes a
generic 500. -/
def create_announcement (db : DB) (payload : AnnouncementPayload)
    (teacher_username : Option String) (now : Nat) (newId : String) (storeExn : Option String) :
    Except HTTPError SerializedAnnouncement × DB :=
  match require_teacher db teacher_username with
  | .error e => (.error e, db)
  | .ok _ =>
  match parse_date payload.start_date "start_date" with
  | .error e => (.error e, db)
  | .ok start_date =>
  match parse_date (some payload.end_date) "end_date" with
  | .error e => (.error e, db)
  | .ok none => (.error ⟨400, "end_date is required"⟩, db)
  | .ok (some end_date) =>
  match validate_date_range start_date end_date with
  | .error e => (.error e, db)
  | .ok _ =>
  match storeExn with
  | some _ => (.error ⟨500, "Failed to create announcement"⟩, db)
  | none =>
    (.ok (serialize_announcement (newDoc payload start_date end_date now newId)),
      { db with announcements := db.announcements ++ [newDoc payload start_date end_date now newId] })

/-- Mongo `update_one` on the `_id` filter: rewrite the first matching
document, leave everything else alone. -/
def updateFirst (oid : String) (f : AnnouncementDoc → AnnouncementDoc) :
    List AnnouncementDoc → List AnnouncementDoc
  | [] => []
  | d :: rest => if d._id = oid then f d :: rest else d :: updateFirst oid f rest

/-- Mongo `find_one` on the `_id` filter: the first matching document. -/
def findById (oid : String) (l : List AnnouncementDoc) : Option AnnouncementDoc :=
  l.find? (fun d => d._id == oid)

/-- Mongo `delete_one` on the `_id` filter: remove the first matching
document. -/
def deleteFirst (oid : String) : List AnnouncementDoc → List AnnouncementDoc
  | [] => []
  | d :: rest => if d._id = oid then rest else d :: deleteFirst oid rest

/-- PUT /announcements/{id}: auth and the same validation as create,
then ObjectId parsing, then `update_one` + `find_one` inside the try
block; `matched_count == 0` is a 404 that the
`except HTTPException: raise` re-raises unchanged, and any store
exception becomes a generic 500. -/
def update_announcement (db : DB) (announcement_id : String) (payload : AnnouncementPayload)
    (teacher_username : Option String) (now : Nat) (storeExn : Option String) :
    Except HTTPError SerializedAnnouncement × DB :=
  match require_teacher db teacher_username with
  | .error e => (.error e, db)
  | .ok _ =>
  match parse_date payload.start_date "start_date" with
  | .error e => (.error e, db)
  | .ok start_date =>
  match parse_date (some payload.end_date) "end_date" with
  | .error e => (.error e, db)
  | .ok none => (.error ⟨400, "end_date is required"⟩, db)
  | .ok (some end_date) =>
  match validate_date_range start_date end_date with
  | .error e => (.error e, db)
  | .ok _ =>
  match parseObjectId announcement_id with
  | .error e => (.error e, db)
  | .ok oid =>
  match storeExn with
  | some _ => (.error ⟨500, "Failed to update announcement"⟩, db)
  | none =>
    let newAnns := updateFirst oid (contentFields payload start_date end_date now) db.announcements
    let db' : DB := { db with announcements := newAnns }
    if (findById oid db.announcements).isNone then (.error ⟨404, "Announcement not found"⟩, db')
    else
      match findById oid newAnns with
      | none => (.error ⟨404, "Announcement not found"⟩, db')
      | some updated => (.ok (serialize_announcement updated), db')

/-- DELETE /announcements/{id}: auth, ObjectId parsing, then `find_one`
(absence is a 404 re-raised unchanged) and `delete_one` inside the try
block; a store exception becomes a generic 500. -/
def delete_announcement (db : DB) (announcement_id : String)
    (teacher_username : Option String) (storeExn : Option String) :
    Except HTTPError String × DB :=
  match require_teacher db teacher_username with
  | .error e => (.error e, db)
  | .ok _ =>
  match parseObjectId announcement_id with
  | .error e => (.error e, db)
  | .ok oid =>
  match storeExn with
  | some _ => (.error ⟨500, "Failed to delete announcement"⟩, db)
  | none =>
    match findById oid db.announcements with
    | none => (.error ⟨404, "Announcement not found"⟩, db)
    | some _ => (.ok "Announcement deleted",
        { db with announcements := deleteFirst oid db.announcements })

/-- the spec's reading of "a valid YYYY-MM-DD string": exactly four
digits, dash, two digits, dash, two digits, denoting a valid calendar
date. -/
def isCanonicalDateString (s : String) : Bool :=
  match s.data with
  | [y1, y2, y3, y4, '-', m1, m2, '-', d1, d2] =>
    isDigitC y1 && isDigitC y2 && isDigitC y3 && isDigitC y4 &&
      isDigitC m1 && isDigitC m2 && isDigitC d1 && isDigitC d2 &&
      validDate (val4 y1 y2 y3 y4) (val2 m1 m2) (val2 d1 d2)
  | _ => false

end Announcements

namespace Announcements

theorem chVal_lt_ten {c : Char} (h : isDigitC c = true) : chVal c < 10 := by
  simp only [isDigitC, Bool.and_eq_true, decide_eq_true_eq] at h
  unfold chVal
  omega

theorem digitChar_chVal {c : Char} (h : isDigitC c = true) : Nat.digitChar (chVal c) = c := by
  simp only [isDigitC, Bool.and_eq_true, decide_eq_true_eq] at h
  obtain ⟨h1, h2⟩ := h
  rw [← Char.ofNat_toNat c]
  unfold chVal
  set n := c.toNat with hn
  clear_value n
  interval_cases n <;> decide

theorem daysInMonth_le (y m : Nat) : daysInMonth y m ≤ 31 := by
  unfold daysInMonth
  split
  · split <;> omega
  · split <;> omega

theorem validDate_bounds {y m d : Nat} (h : validDate y m d = true) :
    1 ≤ y ∧ y ≤ 9999 ∧ 1 ≤ m ∧ m ≤ 12 ∧ 1 ≤ d ∧ d ≤ 31 := by
  simp only [validDate, Bool.and_eq_true, decide_eq_true_eq] at h
  have := daysInMonth_le y m
  omega

theorem strptime_canonical {s : String} (h : isCanonicalDateString s = true) :
    ∃ dt : Date, strptimeDate s = some dt ∧ dt.isoformat = s := by
  unfold isCanonicalDateString at h
  split at h
  case h_2 => exact absurd h (by simp)
  case h_1 y1 y2 y3 y4 m1 m2 d1 d2 heq =>
    simp only [Bool.and_eq_true] at h
    obtain ⟨⟨⟨⟨⟨⟨⟨⟨hy1, hy2⟩, hy3⟩, hy4⟩, hm1⟩, hm2⟩, hd1⟩, hd2⟩, hval⟩ := h
    have hb := validDate_bounds hval
    have by1 := chVal_lt_ten hy1
    have by2 := chVal_lt_ten hy2
    have by3 := chVal_lt_ten hy3
    have by4 := chVal_lt_ten hy4
    have bm1 := chVal_lt_ten hm1
    have bm2 := chVal_lt_ten hm2
    have bd1 := chVal_lt_ten hd1
    have bd2 := chVal_lt_ten hd2
    have hm_lo : 1 ≤ val2 m1 m2 := hb.2.2.1
    have hm_hi : val2 m1 m2 ≤ 12 := hb.2.2.2.1
    have hd_lo : 1 ≤ val2 d1 d2 := hb.2.2.2.2.1
    have hd_hi : val2 d1 d2 ≤ 31 := hb.2.2.2.2.2
    have hs : strpYMD s.data = some (val4 y1 y2 y3 y4, val2 m1 m2, val2 d1 d2) := by
      rw [heq]
      simp only [strpYMD]
      rw [if_pos]
      simp only [Bool.and_eq_true, decide_eq_true_eq]
      and_intros <;> first | rfl | assumption | trivial
    refine ⟨⟨val4 y1 y2 y3 y4, val2 m1 m2, val2 d1 d2⟩, ?_, ?_⟩
    · simp [strptimeDate, hs, hval]
    · have e1 : val4 y1 y2 y3 y4 / 1000 % 10 = chVal y1 := by unfold val4; omega
      have e2 : val4 y1 y2 y3 y4 / 100 % 10 = chVal y2 := by unfold val4; omega
      have e3 : val4 y1 y2 y3 y4 / 10 % 10 = chVal y3 := by unfold val4; omega
      have e4 : val4 y1 y2 y3 y4 % 10 = chVal y4 := by unfold val4; omega
      have e5 : val2 m1 m2 / 10 % 10 = chVal m1 := by unfold val2; omega
      have e6 : val2 m1 m2 % 10 = chVal m2 := by unfold val2; omega
      have e7 : val2 d1 d2 / 10 % 10 = chVal d1 := by unfold val2; omega
      have e8 : val2 d1 d2 % 10 = chVal d2 := by unfold val2; omega
      show (⟨_⟩ : String) = s
      rw [e1, e2, e3, e4, e5, e6, e7, e8,
        digitChar_chVal hy1, digitChar_chVal hy2, digitChar_chVal hy3, digitChar_chVal hy4,
        digitChar_chVal hm1, digitChar_chVal hm2, digitChar_chVal hd1, digitChar_chVal hd2,
        ← heq]

theorem matchesActive_iff {today : String} {d : AnnouncementDoc} :
    matchesActive today d = true ↔ isActiveSpec today d := by
  unfold matchesActive isActiveSpec
  rcases d with ⟨i, t, m, sd, ed, ca, ua⟩
  cases sd <;> cases ed <;>
    simp [Bool.and_eq_true, Bool.or_eq_true, decide_eq_true_eq]

end Announcements

namespace Announcements

theorem strptime_empty : strptimeDate "" = none := rfl

theorem parse_date_some {s : String} {dt : Date} (h : strptimeDate s = some dt) (fn : String) :
    parse_date (some s) fn = .ok (some dt) := by
  have hne : s ≠ "" := by
    intro h'
    rw [h', strptime_empty] at h
    exact Option.noConfusion h
  simp [parse_date, hne, h]

theorem parse_date_error_status {v : Option String} {fn : String} {e : HTTPError}
    (h : parse_date v fn = .error e) : e.status = 400 := by
  cases v with
  | none => exact Except.noConfusion h
  | some s =>
    simp only [parse_date] at h
    by_cases hs : s = ""
    · rw [if_pos hs] at h
      exact Except.noConfusion h
    · rw [if_neg hs] at h
      cases hst : strptimeDate s with
      | some dt =>
        rw [hst] at h
        exact Except.noConfusion h
      | none =>
        rw [hst] at h
        injection h with h'
        rw [← h']

theorem parse_date_ok_strptime {s : String} {fn : String} {dt : Date}
    (h : parse_date (some s) fn = .ok (some dt)) : strptimeDate s = some dt := by
  simp only [parse_date] at h
  by_cases hs : s = ""
  · rw [if_pos hs] at h
    injection h with h'
    exact Option.noConfusion h'
  · rw [if_neg hs] at h
    cases hst : strptimeDate s with
    | some dt' =>
      rw [hst] at h
      injection h
    | none =>
      rw [hst] at h
      exact Except.noConfusion h

theorem require_teacher_ok {anns : List AnnouncementDoc} {ts : List String} {u : String}
    (h1 : u ≠ "") (h2 : u ∈ ts) :
    require_teacher ⟨anns, ts⟩ (some u) = .ok () := by
  simp [require_teacher, h1, h2]

theorem require_teacher_401 {anns : List AnnouncementDoc} {ts : List String} {t : Option String}
    (h : ∀ u, t = some u → u = "" ∨ u ∉ ts) :
    ∃ e, require_teacher ⟨anns, ts⟩ t = .error e ∧ e.status = 401 := by
  match t with
  | none => exact ⟨⟨401, "Authentication required"⟩, rfl, rfl⟩
  | some u =>
    rcases h u rfl with h' | h'
    · subst h'
      exact ⟨⟨401, "Authentication required"⟩, rfl, rfl⟩
    · by_cases hu : u = ""
      · subst hu
        exact ⟨⟨401, "Authentication required"⟩, by simp [require_teacher], rfl⟩
      · exact ⟨⟨401, "Invalid teacher credentials"⟩, by simp [require_teacher, hu, h'], rfl⟩

theorem dropWhile_length_le {α : Type} (p : α → Bool) (l : List α) :
    (l.dropWhile p).length ≤ l.length := by
  induction l with
  | nil => simp
  | cons a as ih =>
    rw [List.dropWhile]
    split
    · exact Nat.le_succ_of_le ih
    · simp

theorem strip_length_le (s : String) : (strip s).length ≤ s.length := by
  show ((s.data.dropWhile _).reverse.dropWhile _).reverse.length ≤ s.data.length
  rw [List.length_reverse]
  calc ((s.data.dropWhile Char.isWhitespace).reverse.dropWhile Char.isWhitespace).length
      ≤ (s.data.dropWhile Char.isWhitespace).reverse.length := dropWhile_length_le _ _
    _ = (s.data.dropWhile Char.isWhitespace).length := List.length_reverse _
    _ ≤ s.data.length := dropWhile_length_le _ _

theorem findById_eq_none {oid : String} {l : List AnnouncementDoc}
    (h : ∀ d ∈ l, d._id ≠ oid) : findById oid l = none := by
  unfold findById
  rw [List.find?_eq_none]
  intro x hx
  simpa using h x hx

theorem updateFirst_of_no_match {oid : String} {f : AnnouncementDoc → AnnouncementDoc}
    {l : List AnnouncementDoc} (h : ∀ d ∈ l, d._id ≠ oid) : updateFirst oid f l = l := by
  induction l with
  | nil => rfl
  | cons d rest ih =>
    rw [updateFirst, if_neg (h d (List.mem_cons_self d rest))]
    rw [ih (fun x hx => h x (List.mem_cons_of_mem d hx))]

theorem updateFirst_decomp {oid : String} (f : AnnouncementDoc → AnnouncementDoc)
    (hf : ∀ d, (f d)._id = d._id) :
    ∀ {l : List AnnouncementDoc}, (findById oid l).isSome →
    ∃ pre t post, l = pre ++ t :: post ∧ (∀ d ∈ pre, d._id ≠ oid) ∧ t._id = oid ∧
      updateFirst oid f l = pre ++ f t :: post ∧
      findById oid (updateFirst oid f l) = some (f t) := by
  intro l
  induction l with
  | nil => intro h; exact absurd h (by simp [findById])
  | cons d rest ih =>
    intro h
    by_cases hd : d._id = oid
    · refine ⟨[], d, rest, rfl, by simp, hd, ?_, ?_⟩
      · simp [updateFirst, hd]
      · simp only [updateFirst, if_pos hd, findById, List.find?]
        have : ((f d)._id == oid) = true := by
          rw [hf d]
          exact beq_iff_eq.mpr hd
        simp [this]
    · have hstep : findById oid (d :: rest) = findById oid rest := by
        simp only [findById, List.find?]
        have : (d._id == oid) = false := by
          rw [beq_eq_false_iff_ne]
          exact hd
        simp [this]
      rw [hstep] at h
      obtain ⟨pre, t, post, hsplit, hpre, ht, hupd, hfind⟩ := ih h
      refine ⟨d :: pre, t, post, by simp [hsplit], ?_, ht, ?_, ?_⟩
      · intro x hx
        rcases List.mem_cons.mp hx with rfl | hx'
        · exact hd
        · exact hpre x hx'
      · rw [updateFirst, if_neg hd, hupd]
        rfl
      · rw [updateFirst, if_neg hd]
        have : (d._id == oid) = false := by
          rw [beq_eq_false_iff_ne]
          exact hd
        simp only [findById, List.find?, this]
        exact hfind

end Announcements

namespace Announcements

theorem create_ok_inv {db : DB} {p : AnnouncementPayload} {t : Option String} {now : Nat}
    {newId : String} {sx : Option String} {r : SerializedAnnouncement} {db' : DB}
    (h : create_announcement db p t now newId sx = (.ok r, db')) :
    require_teacher db t = .ok () ∧ sx = none ∧
    ∃ sd ed, parse_date p.start_date "start_date" = .ok sd ∧
      strptimeDate p.end_date = some ed ∧
      validate_date_range sd ed = .ok () ∧
      db' = { db with announcements := db.announcements ++ [newDoc p sd ed now newId] } ∧
      r = serialize_announcement (newDoc p sd ed now newId) := by
  unfold create_announcement at h
  split at h
  · simp at h
  · split at h
    · simp at h
    · rename_i hrt _ sd hsd
      split at h
      · simp at h
      · simp at h
      · rename_i ed hed
        split at h
        · simp at h
        · rename_i hval
          split at h
          · simp at h
          · rename_i hsx
            injection h with h1 h2
            injection h1 with h1'
            refine ⟨?_, rfl, sd, ed, hsd, parse_date_ok_strptime hed, ?_, h2.symm, h1'.symm⟩
            · rw [hrt]
            · rename_i hv
              rw [hval]
  
end Announcements

namespace Announcements

theorem update_ok_inv {db : DB} {aid : String} {p : AnnouncementPayload} {t : Option String}
    {now : Nat} {sx : Option String} {r : SerializedAnnouncement} {db' : DB}
    (h : update_announcement db aid p t now sx = (.ok r, db')) :
    require_teacher db t = .ok () ∧ sx = none ∧
    ∃ sd ed oid pre t0 post,
      parse_date p.start_date "start_date" = .ok sd ∧
      strptimeDate p.end_date = some ed ∧
      validate_date_range sd ed = .ok () ∧
      parseObjectId aid = .ok oid ∧
      db.announcements = pre ++ t0 :: post ∧
      (∀ d ∈ pre, d._id ≠ oid) ∧ t0._id = oid ∧
      db'.teachers = db.teachers ∧
      db'.announcements = pre ++ contentFields p sd ed now t0 :: post ∧
      r = serialize_announcement (contentFields p sd ed now t0) := by
  simp only [update_announcement] at h
  split at h
  · simp at h
  · split at h
    · simp at h
    · rename_i hrt _ sd hsd
      split at h
      · simp at h
      · simp at h
      · rename_i ed hed
        split at h
        · simp at h
        · rename_i hval
          split at h
          · simp at h
          · rename_i oid hoid
            split at h
            · simp at h
            · rename_i hsx
              split at h
              · simp at h
              · rename_i hnone
                have hsome : (findById oid db.announcements).isSome := by
                  cases hx : findById oid db.announcements with
                  | none => rw [hx] at hnone; exact absurd rfl hnone
                  | some d => rfl
                obtain ⟨pre, t0, post, hsplit, hpre, ht0, hupd, hfind⟩ :=
                  updateFirst_decomp (contentFields p sd ed now) (fun d => rfl) hsome
                rw [hfind] at h
                injection h with h1 h2
                injection h1 with h1'
                refine ⟨by rw [hrt], rfl, sd, ed, oid, pre, t0, post, hsd,
                  parse_date_ok_strptime hed, by rw [hval], by rw [hoid], hsplit, hpre, ht0,
                  ?_, ?_, h1'.symm⟩
                · rw [← h2]
                · rw [← h2]
                  exact hupd

end Announcements

namespace Announcements

/-- C1: for every collection state and every date D taken as today,
listActive (GET /announcements/active) returns exactly the announcements
whose end_date is on or after D and whose start_date is absent, null,
empty, or on or before D, ordered by start_date ascending then
created_at descending; it requires no teacher authentication and its
result is independent of the teacher collection. -/
theorem C1_listActive (anns : List AnnouncementDoc) (ts ts' : List String) (today : String) :
    get_active_announcements ⟨anns, ts⟩ today none =
      get_active_announcements ⟨anns, ts'⟩ today none ∧
    ∃ m : List AnnouncementDoc,
      get_active_announcements ⟨anns, ts⟩ today none = .ok (m.map serialize_announcement) ∧
      (∀ d, d ∈ m ↔ d ∈ anns ∧ isActiveSpec today d) ∧
      m.Perm (anns.filter (matchesActive today)) ∧
      m.Sorted activeLE := by
  refine ⟨rfl, List.insertionSort activeLE (anns.filter (matchesActive today)), rfl, ?_,
    List.perm_insertionSort _ _, List.sorted_insertionSort _ _⟩
  intro d
  rw [(List.perm_insertionSort activeLE _).mem_iff, List.mem_filter, matchesActive_iff]

/-- C8: for every authenticated teacher and every collection state,
listAll (GET /announcements) returns all announcements ordered by
end_date descending then start_date descending. -/
theorem C8_listAll (anns : List AnnouncementDoc) (ts : List String) (u : String)
    (h1 : u ≠ "") (h2 : u ∈ ts) :
    ∃ m : List AnnouncementDoc,
      list_announcements ⟨anns, ts⟩ (some u) none = .ok (m.map serialize_announcement) ∧
      m.Perm anns ∧ m.Sorted allLE := by
  refine ⟨List.insertionSort allLE anns, ?_, List.perm_insertionSort _ _,
    List.sorted_insertionSort _ _⟩
  simp [list_announcements, require_teacher_ok h1 h2]

/-- witness for C8_listAll at a concrete teacher and collection. -/
theorem C8_listAll_witness :
    ∃ m : List AnnouncementDoc,
      list_announcements ⟨[], ["t1"]⟩ (some "t1") none = .ok (m.map serialize_announcement) ∧
      m.Perm [] ∧ m.Sorted allLE :=
  C8_listAll [] ["t1"] "t1" (by decide) (by simp)

/-- C3 (amended): for every canonical YYYY-MM-DD string (four digits,
dash, two digits, dash, two digits, denoting a valid date), parsing and
re-serializing yields the string again; an input that the lenient
strptime pattern rejects, such as "2024/01/01", fails with
InvalidInput (HTTP 400). -/
theorem C3_parse_roundtrip (s fn : String) (h : isCanonicalDateString s = true) :
    (∃ dt : Date, parse_date (some s) fn = .ok (some dt) ∧ dt.isoformat = s) ∧
    parse_date (some "2024/01/01") fn = .error ⟨400, fn ++ " must be in YYYY-MM-DD format"⟩ := by
  constructor
  · obtain ⟨dt, hdt, hiso⟩ := strptime_canonical h
    exact ⟨dt, parse_date_some hdt fn, hiso⟩
  · rfl

/-- witness for C3_parse_roundtrip at the string "2024-05-10". -/
theorem C3_parse_roundtrip_witness :
    isCanonicalDateString "2024-05-10" = true ∧
    ((∃ dt : Date, parse_date (some "2024-05-10") "start_date" = .ok (some dt) ∧
        dt.isoformat = "2024-05-10") ∧
      parse_date (some "2024/01/01") "start_date" =
        .error ⟨400, "start_date" ++ " must be in YYYY-MM-DD format"⟩) :=
  ⟨by decide, C3_parse_roundtrip "2024-05-10" "start_date" (by decide)⟩

/-- counterexample to C3 as stated: "2024-1-1" is not in YYYY-MM-DD
format (one-digit month and day), yet parse_date accepts it, because
strptime's %m and %d also match single digits. -/
theorem C3_counterexample :
    isCanonicalDateString "2024-1-1" = false ∧
    parse_date (some "2024-1-1") "start_date" = .ok (some ⟨2024, 1, 1⟩) :=
  ⟨by decide, rfl⟩

end Announcements

namespace Announcements

/-- C2: for every authenticated teacher and every payload whose
start_date and end_date both parse as dates with start strictly after
end, create and update fail with InvalidInput (HTTP 400) regardless of
the other fields, and the collections are unchanged. -/
theorem C2_date_range (anns : List AnnouncementDoc) (ts : List String) (u : String)
    (p : AnnouncementPayload) (ss : String) (ds de : Date)
    (h1 : u ≠ "") (h2 : u ∈ ts) (h3 : p.start_date = some ss)
    (h4 : strptimeDate ss = some ds) (h5 : strptimeDate p.end_date = some de)
    (h6 : dateLT de ds = true) (aid : String) (now : Nat) (newId : String) (sx : Option String) :
    create_announcement ⟨anns, ts⟩ p (some u) now newId sx =
      (.error ⟨400, "start_date must be on or before end_date"⟩, ⟨anns, ts⟩) ∧
    update_announcement ⟨anns, ts⟩ aid p (some u) now sx =
      (.error ⟨400, "start_date must be on or before end_date"⟩, ⟨anns, ts⟩) := by
  have hrt : require_teacher ⟨anns, ts⟩ (some u) = .ok () := require_teacher_ok h1 h2
  have hps : parse_date p.start_date "start_date" = .ok (some ds) := by
    rw [h3]
    exact parse_date_some h4 _
  have hpe : parse_date (some p.end_date) "end_date" = .ok (some de) := parse_date_some h5 _
  have hval : validate_date_range (some ds) de =
      .error ⟨400, "start_date must be on or before end_date"⟩ := by
    simp [validate_date_range, h6]
  constructor
  · simp [create_announcement, hrt, hps, hpe, hval]
  · simp [update_announcement, hrt, hps, hpe, hval]

/-- witness for C2_date_range: start 2024-05-11, end 2024-05-10. -/
theorem C2_date_range_witness :
    create_announcement ⟨[], ["t1"]⟩ ⟨"T", "M", some "2024-05-11", "2024-05-10"⟩ (some "t1") 0 "x" none =
      (.error ⟨400, "start_date must be on or before end_date"⟩, ⟨[], ["t1"]⟩) ∧
    update_announcement ⟨[], ["t1"]⟩ "0123456789abcdef01234567"
        ⟨"T", "M", some "2024-05-11", "2024-05-10"⟩ (some "t1") 0 none =
      (.error ⟨400, "start_date must be on or before end_date"⟩, ⟨[], ["t1"]⟩) :=
  C2_date_range [] ["t1"] "t1" ⟨"T", "M", some "2024-05-11", "2024-05-10"⟩ "2024-05-11"
    ⟨2024, 5, 11⟩ ⟨2024, 5, 10⟩ (by decide) (by simp) rfl rfl rfl rfl
    "0123456789abcdef01234567" 0 "x" none

/-- C4: for every authenticated teacher, create and update fail with
InvalidInput (HTTP 400) whenever the payload's end_date is empty (the
modelled form of an absent end_date; a request without the field never
reaches the handler), leaving the collections unchanged, and reach
persistence only when end_date parses as a date. -/
theorem C4_end_date_required (anns : List AnnouncementDoc) (ts : List String) (u : String)
    (p : AnnouncementPayload) (aid : String) (now : Nat) (newId : String) (sx : Option String)
    (h1 : u ≠ "") (h2 : u ∈ ts) :
    (p.end_date = "" →
      (∃ e, (create_announcement ⟨anns, ts⟩ p (some u) now newId sx).1 = .error e ∧
        e.status = 400) ∧
      (create_announcement ⟨anns, ts⟩ p (some u) now newId sx).2 = ⟨anns, ts⟩ ∧
      (∃ e, (update_announcement ⟨anns, ts⟩ aid p (some u) now sx).1 = .error e ∧
        e.status = 400) ∧
      (update_announcement ⟨anns, ts⟩ aid p (some u) now sx).2 = ⟨anns, ts⟩) ∧
    (∀ r db', create_announcement ⟨anns, ts⟩ p (some u) now newId sx = (.ok r, db') →
      ∃ ed, strptimeDate p.end_date = some ed) ∧
    (∀ r db', update_announcement ⟨anns, ts⟩ aid p (some u) now sx = (.ok r, db') →
      ∃ ed, strptimeDate p.end_date = some ed) := by
  have hrt : require_teacher ⟨anns, ts⟩ (some u) = .ok () := require_teacher_ok h1 h2
  refine ⟨?_, ?_, ?_⟩
  · intro hend
    cases hsd : parse_date p.start_date "start_date" with
    | error e =>
      have h400 := parse_date_error_status hsd
      exact ⟨⟨e, by simp [create_announcement, hrt, hsd], h400⟩,
        by simp [create_announcement, hrt, hsd],
        ⟨e, by simp [update_announcement, hrt, hsd], h400⟩,
        by simp [update_announcement, hrt, hsd]⟩
    | ok sd =>
      have hpe : parse_date (some p.end_date) "end_date" = .ok none := by
        rw [hend]
        rfl
      exact ⟨⟨⟨400, "end_date is required"⟩, by simp [create_announcement, hrt, hsd, hpe], rfl⟩,
        by simp [create_announcement, hrt, hsd, hpe],
        ⟨⟨400, "end_date is required"⟩, by simp [update_announcement, hrt, hsd, hpe], rfl⟩,
        by simp [update_announcement, hrt, hsd, hpe]⟩
  · intro r db' hok
    obtain ⟨_, _, sd, ed, _, hed, _⟩ := create_ok_inv hok
    exact ⟨ed, hed⟩
  · intro r db' hok
    obtain ⟨_, _, sd, ed, oid, pre, t0, post, _, hed, _⟩ := update_ok_inv hok
    exact ⟨ed, hed⟩

/-- witness for C4_end_date_required at a payload with empty end_date. -/
theorem C4_end_date_required_witness :
    ((⟨"T", "M", none, ""⟩ : AnnouncementPayload).end_date = "" →
      (∃ e, (create_announcement ⟨[], ["t1"]⟩ ⟨"T", "M", none, ""⟩ (some "t1") 0 "x" none).1 =
          .error e ∧ e.status = 400) ∧
      (create_announcement ⟨[], ["t1"]⟩ ⟨"T", "M", none, ""⟩ (some "t1") 0 "x" none).2 =
        ⟨[], ["t1"]⟩ ∧
      (∃ e, (update_announcement ⟨[], ["t1"]⟩ "0123456789abcdef01234567"
          ⟨"T", "M", none, ""⟩ (some "t1") 0 none).1 = .error e ∧ e.status = 400) ∧
      (update_announcement ⟨[], ["t1"]⟩ "0123456789abcdef01234567"
          ⟨"T", "M", none, ""⟩ (some "t1") 0 none).2 = ⟨[], ["t1"]⟩) ∧
    (∀ r db', create_announcement ⟨[], ["t1"]⟩ ⟨"T", "M", none, ""⟩ (some "t1") 0 "x" none =
        (.ok r, db') →
      ∃ ed, strptimeDate (⟨"T", "M", none, ""⟩ : AnnouncementPayload).end_date = some ed) ∧
    (∀ r db', update_announcement ⟨[], ["t1"]⟩ "0123456789abcdef01234567"
        ⟨"T", "M", none, ""⟩ (some "t1") 0 none = (.ok r, db') →
      ∃ ed, strptimeDate (⟨"T", "M", none, ""⟩ : AnnouncementPayload).end_date = some ed) :=
  C4_end_date_required [] ["t1"] "t1" ⟨"T", "M", none, ""⟩ "0123456789abcdef01234567" 0 "x" none
    (by decide) (by simp)

/-- C5: for every authenticated teacher, valid payload, and well-formed
id resolving to no record, update and delete fail with NotFound
(HTTP 404) and leave the collection unchanged. -/
theorem C5_not_found (anns : List AnnouncementDoc) (ts : List String) (u : String)
    (p : AnnouncementPayload) (aid : String) (now : Nat) (sd : Option Date) (ed : Date)
    (h1 : u ≠ "") (h2 : u ∈ ts)
    (hsd : parse_date p.start_date "start_date" = .ok sd)
    (hed : strptimeDate p.end_date = some ed)
    (hr : validate_date_range sd ed = .ok ())
    (hid : isValidObjectId aid = true)
    (hmiss : ∀ d ∈ anns, d._id ≠ lowerId aid) :
    update_announcement ⟨anns, ts⟩ aid p (some u) now none =
      (.error ⟨404, "Announcement not found"⟩, ⟨anns, ts⟩) ∧
    delete_announcement ⟨anns, ts⟩ aid (some u) none =
      (.error ⟨404, "Announcement not found"⟩, ⟨anns, ts⟩) := by
  have hrt : require_teacher ⟨anns, ts⟩ (some u) = .ok () := require_teacher_ok h1 h2
  have hpe : parse_date (some p.end_date) "end_date" = .ok (some ed) := parse_date_some hed _
  have hoid : parseObjectId aid = .ok (lowerId aid) := by simp [parseObjectId, hid]
  have hfind : findById (lowerId aid) anns = none := findById_eq_none hmiss
  have hupd : updateFirst (lowerId aid) (contentFields p sd ed now) anns = anns :=
    updateFirst_of_no_match hmiss
  constructor
  · simp [update_announcement, hrt, hsd, hpe, hr, hoid, hupd, hfind]
  · simp [delete_announcement, hrt, hoid, hfind]

/-- witness for C5_not_found at an empty collection. -/
theorem C5_not_found_witness :
    update_announcement ⟨[], ["t1"]⟩ "0123456789abcdef01234567"
        ⟨"T", "M", none, "2024-05-10"⟩ (some "t1") 0 none =
      (.error ⟨404, "Announcement not found"⟩, ⟨[], ["t1"]⟩) ∧
    delete_announcement ⟨[], ["t1"]⟩ "0123456789abcdef01234567" (some "t1") none =
      (.error ⟨404, "Announcement not found"⟩, ⟨[], ["t1"]⟩) :=
  C5_not_found [] ["t1"] "t1" ⟨"T", "M", none, "2024-05-10"⟩ "0123456789abcdef01234567" 0
    none ⟨2024, 5, 10⟩ (by decide) (by simp) rfl rfl rfl (by decide) (by simp)

end Announcements

namespace Announcements

/-- C6: whenever the teacher identifier is missing, empty, or unknown,
listAll, create, update and delete fail with Unauthorized (HTTP 401)
before touching the announcement collection (their outcome is
independent of it and the state is unchanged), and require_teacher
checks nothing beyond existence of the teacher record. -/
theorem C6_unauthorized (anns anns' : List AnnouncementDoc) (ts : List String) (t : Option String)
    (p : AnnouncementPayload) (aid : String) (now : Nat) (newId : String) (sx : Option String)
    (h : ∀ u, t = some u → u = "" ∨ u ∉ ts) :
    (∃ e, require_teacher ⟨anns, ts⟩ t = .error e ∧ e.status = 401) ∧
    (∀ u, u ∈ ts → u ≠ "" → require_teacher ⟨anns, ts⟩ (some u) = .ok ()) ∧
    list_announcements ⟨anns, ts⟩ t sx = list_announcements ⟨anns', ts⟩ t sx ∧
    (∃ e, list_announcements ⟨anns, ts⟩ t sx = .error e ∧ e.status = 401) ∧
    (create_announcement ⟨anns, ts⟩ p t now newId sx).1 =
      (create_announcement ⟨anns', ts⟩ p t now newId sx).1 ∧
    (∃ e, (create_announcement ⟨anns, ts⟩ p t now newId sx).1 = .error e ∧ e.status = 401) ∧
    (create_announcement ⟨anns, ts⟩ p t now newId sx).2 = ⟨anns, ts⟩ ∧
    (update_announcement ⟨anns, ts⟩ aid p t now sx).1 =
      (update_announcement ⟨anns', ts⟩ aid p t now sx).1 ∧
    (∃ e, (update_announcement ⟨anns, ts⟩ aid p t now sx).1 = .error e ∧ e.status = 401) ∧
    (update_announcement ⟨anns, ts⟩ aid p t now sx).2 = ⟨anns, ts⟩ ∧
    (delete_announcement ⟨anns, ts⟩ aid t sx).1 =
      (delete_announcement ⟨anns', ts⟩ aid t sx).1 ∧
    (∃ e, (delete_announcement ⟨anns, ts⟩ aid t sx).1 = .error e ∧ e.status = 401) ∧
    (delete_announcement ⟨anns, ts⟩ aid t sx).2 = ⟨anns, ts⟩ := by
  have hpack : ∃ e, require_teacher ⟨anns, ts⟩ t = .error e ∧ e.status = 401 :=
    require_teacher_401 h
  obtain ⟨e, he, h401⟩ := hpack
  have he' : require_teacher ⟨anns', ts⟩ t = .error e := he
  refine ⟨⟨e, he, h401⟩, fun u hu hne => require_teacher_ok hne hu, ?_, ⟨e, ?_, h401⟩,
    ?_, ⟨e, ?_, h401⟩, ?_, ?_, ⟨e, ?_, h401⟩, ?_, ?_, ⟨e, ?_, h401⟩, ?_⟩
  · simp [list_announcements, he, he']
  · simp [list_announcements, he]
  · simp [create_announcement, he, he']
  · simp [create_announcement, he]
  · simp [create_announcement, he]
  · simp [update_announcement, he, he']
  · simp [update_announcement, he]
  · simp [update_announcement, he]
  · simp [delete_announcement, he, he']
  · simp [delete_announcement, he]
  · simp [delete_announcement, he]

/-- witness for C6_unauthorized with an unknown teacher "x". -/
theorem C6_unauthorized_witness :
    (∃ e, require_teacher ⟨[], ["t1"]⟩ (some "x") = .error e ∧ e.status = 401) ∧
    (∀ u, u ∈ ["t1"] → u ≠ "" → require_teacher ⟨[], ["t1"]⟩ (some u) = .ok ()) ∧
    list_announcements ⟨[], ["t1"]⟩ (some "x") none =
      list_announcements ⟨[], ["t1"]⟩ (some "x") none ∧
    (∃ e, list_announcements ⟨[], ["t1"]⟩ (some "x") none = .error e ∧ e.status = 401) ∧
    (create_announcement ⟨[], ["t1"]⟩ ⟨"T", "M", none, "2024-05-10"⟩ (some "x") 0 "y" none).1 =
      (create_announcement ⟨[], ["t1"]⟩ ⟨"T", "M", none, "2024-05-10"⟩ (some "x") 0 "y" none).1 ∧
    (∃ e, (create_announcement ⟨[], ["t1"]⟩ ⟨"T", "M", none, "2024-05-10"⟩
      (some "x") 0 "y" none).1 = .error e ∧ e.status = 401) ∧
    (create_announcement ⟨[], ["t1"]⟩ ⟨"T", "M", none, "2024-05-10"⟩ (some "x") 0 "y" none).2 =
      ⟨[], ["t1"]⟩ ∧
    (update_announcement ⟨[], ["t1"]⟩ "0123456789abcdef01234567"
        ⟨"T", "M", none, "2024-05-10"⟩ (some "x") 0 none).1 =
      (update_announcement ⟨[], ["t1"]⟩ "0123456789abcdef01234567"
        ⟨"T", "M", none, "2024-05-10"⟩ (some "x") 0 none).1 ∧
    (∃ e, (update_announcement ⟨[], ["t1"]⟩ "0123456789abcdef01234567"
        ⟨"T", "M", none, "2024-05-10"⟩ (some "x") 0 none).1 = .error e ∧ e.status = 401) ∧
    (update_announcement ⟨[], ["t1"]⟩ "0123456789abcdef01234567"
        ⟨"T", "M", none, "2024-05-10"⟩ (some "x") 0 none).2 = ⟨[], ["t1"]⟩ ∧
    (delete_announcement ⟨[], ["t1"]⟩ "0123456789abcdef01234567" (some "x") none).1 =
      (delete_announcement ⟨[], ["t1"]⟩ "0123456789abcdef01234567" (some "x") none).1 ∧
    (∃ e, (delete_announcement ⟨[], ["t1"]⟩ "0123456789abcdef01234567"
      (some "x") none).1 = .error e ∧ e.status = 401) ∧
    (delete_announcement ⟨[], ["t1"]⟩ "0123456789abcdef01234567" (some "x") none).2 =
      ⟨[], ["t1"]⟩ :=
  C6_unauthorized [] [] ["t1"] (some "x") ⟨"T", "M", none, "2024-05-10"⟩
    "0123456789abcdef01234567" 0 "y" none (by intro u hu; injection hu with hu'; right; simp [← hu'])

end Announcements

namespace Announcements

/-- C9: errors already carrying an HTTP status propagate unchanged (the
404 raised inside the try block of update and delete is re-raised as a
404), while an unexpected store exception is caught and converted to a
500 whose detail is the operation's fixed generic message, independent
of the exception text. -/
theorem C9_store_failure (anns : List AnnouncementDoc) (ts : List String) (u : String)
    (p : AnnouncementPayload) (aid : String) (now : Nat) (newId : String) (today : String)
    (msg : String) (sd : Option Date) (ed : Date)
    (h1 : u ≠ "") (h2 : u ∈ ts)
    (hsd : parse_date p.start_date "start_date" = .ok sd)
    (hed : strptimeDate p.end_date = some ed)
    (hr : validate_date_range sd ed = .ok ())
    (hid : isValidObjectId aid = true) :
    get_active_announcements ⟨anns, ts⟩ today (some msg) =
      .error ⟨500, "Failed to load announcements"⟩ ∧
    list_announcements ⟨anns, ts⟩ (some u) (some msg) =
      .error ⟨500, "Failed to load announcements"⟩ ∧
    create_announcement ⟨anns, ts⟩ p (some u) now newId (some msg) =
      (.error ⟨500, "Failed to create announcement"⟩, ⟨anns, ts⟩) ∧
    update_announcement ⟨anns, ts⟩ aid p (some u) now (some msg) =
      (.error ⟨500, "Failed to update announcement"⟩, ⟨anns, ts⟩) ∧
    delete_announcement ⟨anns, ts⟩ aid (some u) (some msg) =
      (.error ⟨500, "Failed to delete announcement"⟩, ⟨anns, ts⟩) ∧
    ((∀ d ∈ anns, d._id ≠ lowerId aid) →
      update_announcement ⟨anns, ts⟩ aid p (some u) now none =
        (.error ⟨404, "Announcement not found"⟩, ⟨anns, ts⟩) ∧
      delete_announcement ⟨anns, ts⟩ aid (some u) none =
        (.error ⟨404, "Announcement not found"⟩, ⟨anns, ts⟩)) := by
  have hrt : require_teacher ⟨anns, ts⟩ (some u) = .ok () := require_teacher_ok h1 h2
  have hpe : parse_date (some p.end_date) "end_date" = .ok (some ed) := parse_date_some hed _
  have hoid : parseObjectId aid = .ok (lowerId aid) := by simp [parseObjectId, hid]
  refine ⟨rfl, ?_, ?_, ?_, ?_, ?_⟩
  · simp [list_announcements, hrt]
  · simp [create_announcement, hrt, hsd, hpe, hr]
  · simp [update_announcement, hrt, hsd, hpe, hr, hoid]
  · simp [delete_announcement, hrt, hoid]
  · intro hmiss
    have hfind : findById (lowerId aid) anns = none := findById_eq_none hmiss
    have hupd : updateFirst (lowerId aid) (contentFields p sd ed now) anns = anns :=
      updateFirst_of_no_match hmiss
    constructor
    · simp [update_announcement, hrt, hsd, hpe, hr, hoid, hupd, hfind]
    · simp [delete_announcement, hrt, hoid, hfind]

/-- witness for C9_store_failure with exception text "boom". -/
theorem C9_store_failure_witness :
    get_active_announcements ⟨[], ["t1"]⟩ "2024-05-01" (some "boom") =
      .error ⟨500, "Failed to load announcements"⟩ ∧
    list_announcements ⟨[], ["t1"]⟩ (some "t1") (some "boom") =
      .error ⟨500, "Failed to load announcements"⟩ ∧
    create_announcement ⟨[], ["t1"]⟩ ⟨"T", "M", none, "2024-05-10"⟩ (some "t1") 0 "y"
        (some "boom") =
      (.error ⟨500, "Failed to create announcement"⟩, ⟨[], ["t1"]⟩) ∧
    update_announcement ⟨[], ["t1"]⟩ "0123456789abcdef01234567"
        ⟨"T", "M", none, "2024-05-10"⟩ (some "t1") 0 (some "boom") =
      (.error ⟨500, "Failed to update announcement"⟩, ⟨[], ["t1"]⟩) ∧
    delete_announcement ⟨[], ["t1"]⟩ "0123456789abcdef01234567" (some "t1") (some "boom") =
      (.error ⟨500, "Failed to delete announcement"⟩, ⟨[], ["t1"]⟩) ∧
    ((∀ d ∈ ([] : List AnnouncementDoc), d._id ≠ lowerId "0123456789abcdef01234567") →
      update_announcement ⟨[], ["t1"]⟩ "0123456789abcdef01234567"
          ⟨"T", "M", none, "2024-05-10"⟩ (some "t1") 0 none =
        (.error ⟨404, "Announcement not found"⟩, ⟨[], ["t1"]⟩) ∧
      delete_announcement ⟨[], ["t1"]⟩ "0123456789abcdef01234567" (some "t1") none =
        (.error ⟨404, "Announcement not found"⟩, ⟨[], ["t1"]⟩)) :=
  C9_store_failure [] ["t1"] "t1" ⟨"T", "M", none, "2024-05-10"⟩ "0123456789abcdef01234567"
    0 "y" "2024-05-01" "boom" none ⟨2024, 5, 10⟩ (by decide) (by simp) rfl rfl rfl (by decide)

end Announcements

namespace Announcements

/-- C7 (amended): every record produced by a successful create or
update stores title and message in trimmed form, with title at most 80
characters and message at most 280 (the pre-trim payload satisfies the
1-character minima, but trimming can shorten a blank field to the empty
string, so the lower bounds do not survive). -/
theorem C7_trim_bounds (anns : List AnnouncementDoc) (ts : List String)
    (p : AnnouncementPayload) (t : Option String) (aid : String) (now : Nat) (newId : String)
    (sx : Option String) (hv : payloadValid p = true) :
    (∀ r db', create_announcement ⟨anns, ts⟩ p t now newId sx = (.ok r, db') →
      ∃ d, db'.announcements = anns ++ [d] ∧ d.title = strip p.title ∧
        d.message = strip p.message ∧ d.title.length ≤ 80 ∧ d.message.length ≤ 280) ∧
    (∀ r db', update_announcement ⟨anns, ts⟩ aid p t now sx = (.ok r, db') →
      ∃ d, d ∈ db'.announcements ∧ r = serialize_announcement d ∧ d.title = strip p.title ∧
        d.message = strip p.message ∧ d.title.length ≤ 80 ∧ d.message.length ≤ 280) := by
  have hv' : p.title.length ≤ 80 ∧ p.message.length ≤ 280 := by
    simp only [payloadValid, Bool.and_eq_true, decide_eq_true_eq] at hv
    exact ⟨hv.1.1.2, hv.2⟩
  have ht80 : (strip p.title).length ≤ 80 := le_trans (strip_length_le _) hv'.1
  have hm280 : (strip p.message).length ≤ 280 := le_trans (strip_length_le _) hv'.2
  constructor
  · intro r db' hok
    obtain ⟨_, _, sd, ed, _, _, _, hdb, hr⟩ := create_ok_inv hok
    refine ⟨newDoc p sd ed now newId, ?_, rfl, rfl, ht80, hm280⟩
    rw [hdb]
  · intro r db' hok
    obtain ⟨_, _, sd, ed, oid, pre, t0, post, hsd2, hed2, hval2, hoid2, hsplit, hpre, ht0,
      hteach, hanns, hr⟩ := update_ok_inv hok
    refine ⟨contentFields p sd ed now t0, ?_, hr, rfl, rfl, ht80, hm280⟩
    rw [hanns]
    exact List.mem_append_right _ (List.mem_cons_self _ _)

/-- witness for C7_trim_bounds at a concrete valid payload. -/
theorem C7_trim_bounds_witness :
    payloadValid ⟨"T", "M", none, "2024-05-10"⟩ = true ∧
    ((∀ r db', create_announcement ⟨[], ["t1"]⟩ ⟨"T", "M", none, "2024-05-10"⟩ (some "t1") 0 "y"
        none = (.ok r, db') →
      ∃ d, db'.announcements = [] ++ [d] ∧
        d.title = strip (AnnouncementPayload.title ⟨"T", "M", none, "2024-05-10"⟩) ∧
        d.message = strip (AnnouncementPayload.message ⟨"T", "M", none, "2024-05-10"⟩) ∧
        d.title.length ≤ 80 ∧ d.message.length ≤ 280) ∧
    (∀ r db', update_announcement ⟨[], ["t1"]⟩ "0123456789abcdef01234567"
        ⟨"T", "M", none, "2024-05-10"⟩ (some "t1") 0 none = (.ok r, db') →
      ∃ d, d ∈ db'.announcements ∧ r = serialize_announcement d ∧
        d.title = strip (AnnouncementPayload.title ⟨"T", "M", none, "2024-05-10"⟩) ∧
        d.message = strip (AnnouncementPayload.message ⟨"T", "M", none, "2024-05-10"⟩) ∧
        d.title.length ≤ 80 ∧ d.message.length ≤ 280)) :=
  ⟨by decide, C7_trim_bounds [] ["t1"] ⟨"T", "M", none, "2024-05-10"⟩ (some "t1")
    "0123456789abcdef01234567" 0 "y" none (by decide)⟩

/-- counterexample to C7 as stated: the payload with a one-space title
and message passes the pydantic bounds (length 1 each), the create
succeeds, but the stored and returned title is the empty string: its
length is 0, not within 1..80. -/
theorem C7_counterexample :
    payloadValid ⟨" ", " ", none, "2024-05-10"⟩ = true ∧
    (create_announcement ⟨[], ["t1"]⟩ ⟨" ", " ", none, "2024-05-10"⟩ (some "t1") 0
        "0123456789abcdef01234567" none).1 =
      .ok ⟨"0123456789abcdef01234567", "", "", none, some "2024-05-10", some 0, some 0⟩ ∧
    (strip (" " : String)).length = 0 :=
  ⟨by decide, rfl, by decide⟩

/-- C10: a successful update rewrites only the first document matching
the id, replacing exactly title, message, start_date, end_date and
updated_at (contentFields is a record update touching only those five
fields); the document's _id and created_at are unchanged and every
other record in the collection is untouched. -/
theorem C10_update_frame (db : DB) (aid : String) (p : AnnouncementPayload) (t : Option String)
    (now : Nat) (sx : Option String) (r : SerializedAnnouncement) (db' : DB)
    (h : update_announcement db aid p t now sx = (.ok r, db')) :
    ∃ oid sd ed pre t0 post,
      parseObjectId aid = .ok oid ∧
      db.announcements = pre ++ t0 :: post ∧
      (∀ d ∈ pre, d._id ≠ oid) ∧ t0._id = oid ∧
      db'.teachers = db.teachers ∧
      db'.announcements = pre ++ contentFields p sd ed now t0 :: post ∧
      (contentFields p sd ed now t0)._id = t0._id ∧
      (contentFields p sd ed now t0).created_at = t0.created_at ∧
      r = serialize_announcement (contentFields p sd ed now t0) := by
  obtain ⟨_, _, sd, ed, oid, pre, t0, post, hsd2, hed2, hval2, hoid2, hsplit, hpre, ht0,
    hteach, hanns, hr⟩ := update_ok_inv h
  exact ⟨oid, sd, ed, pre, t0, post, hoid2, hsplit, hpre, ht0, hteach, hanns, rfl, rfl, hr⟩

/-- witness for C10_update_frame at a concrete successful update. -/
theorem C10_update_frame_witness :
    ∃ oid sd ed pre t0 post,
      parseObjectId "0123456789abcdef01234567" = .ok oid ∧
      (DB.mk [⟨"0123456789abcdef01234567", "Old", "OldMsg", BsonStr.null,
        BsonStr.val "2024-05-10", 5, 5⟩] ["t1"]).announcements = pre ++ t0 :: post ∧
      (∀ d ∈ pre, d._id ≠ oid) ∧ t0._id = oid ∧
      (DB.mk [⟨"0123456789abcdef01234567", "New", "NewMsg", BsonStr.null,
        BsonStr.val "2024-06-01", 5, 7⟩] ["t1"]).teachers =
        (DB.mk [⟨"0123456789abcdef01234567", "Old", "OldMsg", BsonStr.null,
          BsonStr.val "2024-05-10", 5, 5⟩] ["t1"]).teachers ∧
      (DB.mk [⟨"0123456789abcdef01234567", "New", "NewMsg", BsonStr.null,
        BsonStr.val "2024-06-01", 5, 7⟩] ["t1"]).announcements =
        pre ++ contentFields ⟨"New", "NewMsg", none, "2024-06-01"⟩ sd ed 7 t0 :: post ∧
      (contentFields ⟨"New", "NewMsg", none, "2024-06-01"⟩ sd ed 7 t0)._id = t0._id ∧
      (contentFields ⟨"New", "NewMsg", none, "2024-06-01"⟩ sd ed 7 t0).created_at =
        t0.created_at ∧
      (⟨"0123456789abcdef01234567", "New", "NewMsg", none, some "2024-06-01", some 5, some 7⟩ :
          SerializedAnnouncement) =
        serialize_announcement (contentFields ⟨"New", "NewMsg", none, "2024-06-01"⟩ sd ed 7 t0) :=
  C10_update_frame
    ⟨[⟨"0123456789abcdef01234567", "Old", "OldMsg", BsonStr.null, BsonStr.val "2024-05-10", 5, 5⟩],
      ["t1"]⟩
    "0123456789abcdef01234567" ⟨"New", "NewMsg", none, "2024-06-01"⟩ (some "t1") 7 none
    ⟨"0123456789abcdef01234567", "New", "NewMsg", none, some "2024-06-01", some 5, some 7⟩
    ⟨[⟨"0123456789abcdef01234567", "New", "NewMsg", BsonStr.null, BsonStr.val "2024-06-01", 5, 7⟩],
      ["t1"]⟩
    rfl

end Announcements
